import Mathlib

/-!
Verification of the experiment-orchestration harness (dataset providers,
tuning-result store, evaluation orchestrator, results aggregator).

The Python source is shallowly embedded: JSON file contents become explicit
structures, the on-disk results store becomes an association list keyed by
(dataset name, model name), wall-clock readings become explicit rational
inputs, and exceptions become `Except` / option values.  Functions keep the
source's names where Lean allows it.
-/

/-- A JSON value as it appears in the persisted `hp` hyperparameter mappings.
List payloads are modelled one level deep (atoms only), which covers the
hyperparameter values the harness stores; the flattening in
`get_results_table` stringifies them wholesale. -/
inductive JsonVal where
  | str (s : String)
  | num (q : Rat)
  | boolv (b : Bool)
  | null
  | listv (l : List String)
  deriving DecidableEq, Repr

/-- Hyperparameter mapping, as stored in `tuning.json` / `evaluation.json`. -/
abbrev HP := List (String × JsonVal)

/-- Contents of a `tuning.json` file: best hyperparameters, validation score,
number of tuning trials (read-only input to the orchestrator). -/
structure TuningResults where
  hp : HP
  score : Rat
  n_trials : Nat
  deriving DecidableEq, Repr

/-- Contents of an `evaluation.json` file, exactly the keys written by
`save_evaluation_results`. -/
structure EvalFile where
  hp : HP
  score : Rat
  tuning_n_trials : Nat
  val_score : Rat
  train_time : Rat
  evaluation_time : Rat
  metric_used : String
  deriving DecidableEq, Repr

/-- The `results` dictionary built by `save_evaluation_results` before it is
dumped to `evaluation.json`. -/
def mkEvalFile (metric : String) (tuning_results : TuningResults)
    (score train_time evaluation_time : Rat) : EvalFile :=
  { hp := tuning_results.hp
    score := score
    tuning_n_trials := tuning_results.n_trials
    val_score := tuning_results.score
    train_time := train_time
    evaluation_time := evaluation_time
    metric_used := metric }

/-- `save_evaluation_results` from `utils/training.py`, acting on the slot of
the pair's `evaluation.json` file (`none` = the file is absent, so that the
`open` for reading raises `FileNotFoundError`).  Returns the slot after the
call. `is_metric_maximized` and `metric` are the dataset's class attributes. -/
def save_evaluation_results (is_metric_maximized : Bool) (metric : String)
    (tuning_results : TuningResults) (score train_time evaluation_time : Rat)
    (prev : Option EvalFile) : Option EvalFile :=
  let better_val_results :=
    match prev with
    | some prev_results =>
        if is_metric_maximized then
          decide (tuning_results.score > prev_results.val_score)
        else
          decide (tuning_results.score < prev_results.val_score)
    | none => true
  if better_val_results then
    some (mkEvalFile metric tuning_results score train_time evaluation_time)
  else
    prev

/-- "Strictly better validation score", direction given by the dataset's
maximize/minimize flag — the spec's notion, stated independently of the code. -/
def strictlyBetter (is_metric_maximized : Bool) (candidate stored : Rat) : Prop :=
  if is_metric_maximized then stored < candidate else candidate < stored

instance (mx : Bool) (a b : Rat) : Decidable (strictlyBetter mx a b) := by
  unfold strictlyBetter; split <;> infer_instance

/-- C1: `save_evaluation_results` overwrites an existing stored evaluation
result iff the new candidate's validation score is strictly better than the
stored one (direction per the dataset's maximize/minimize flag); when no
prior file exists the result is always written; when the candidate is not
strictly better the existing file is left unchanged. -/
theorem save_evaluation_results_overwrite_policy
    (mx : Bool) (metric : String) (tr : TuningResults)
    (score train_time evaluation_time : Rat) (p : EvalFile) :
    save_evaluation_results mx metric tr score train_time evaluation_time none
      = some (mkEvalFile metric tr score train_time evaluation_time)
    ∧ (strictlyBetter mx tr.score p.val_score →
        save_evaluation_results mx metric tr score train_time evaluation_time (some p)
          = some (mkEvalFile metric tr score train_time evaluation_time))
    ∧ (¬ strictlyBetter mx tr.score p.val_score →
        save_evaluation_results mx metric tr score train_time evaluation_time (some p)
          = some p) := by
  refine ⟨rfl, ?_, ?_⟩ <;>
    · intro h
      simp only [save_evaluation_results, strictlyBetter] at *
      cases mx <;> simp_all

/-- Witness for C1 at concrete inputs, both directions of the flag. -/
theorem save_evaluation_results_overwrite_policy_witness :
    (strictlyBetter true { hp := [], score := 2, n_trials := 5 : TuningResults }.score
        { hp := [], score := 7, tuning_n_trials := 1, val_score := 1, train_time := 3,
          evaluation_time := 4, metric_used := "f1" : EvalFile }.val_score)
    ∧ save_evaluation_results true "f1" { hp := [], score := 2, n_trials := 5 } 7 3 4
        (some { hp := [], score := 7, tuning_n_trials := 1, val_score := 1, train_time := 3,
                evaluation_time := 4, metric_used := "f1" })
        = some (mkEvalFile "f1" { hp := [], score := 2, n_trials := 5 } 7 3 4) := by
  refine ⟨by decide, ?_⟩
  exact (save_evaluation_results_overwrite_policy true "f1"
    { hp := [], score := 2, n_trials := 5 } 7 3 4
    { hp := [], score := 7, tuning_n_trials := 1, val_score := 1, train_time := 3,
      evaluation_time := 4, metric_used := "f1" }).2.1 (by decide)

/-- Round a rational to the nearest integer, ties to even (Python's float
formatting rounds half-to-even; exact rational rounding stands in for the
binary-float intermediate). -/
def roundHalfEven (x : Rat) : Int :=
  let f := ⌊x⌋
  let r := x - f
  if r < 1/2 then f
  else if r > 1/2 then f + 1
  else if f % 2 = 0 then f else f + 1

/-- Python's fixed-point formatting `f"{q:.df}"`. -/
def fmtFixed (decimals : Nat) (q : Rat) : String :=
  let scale : Nat := 10 ^ decimals
  let n := roundHalfEven (q * (scale : Rat))
  let sign := if n < 0 then "-" else ""
  let a := n.natAbs
  let ds := toString (a % scale)
  let pad := String.mk (List.replicate (decimals - ds.length) '0')
  sign ++ toString (a / scale) ++ "." ++ pad ++ ds

/-- Per-dataset class attributes the orchestrator reads. -/
structure DatasetSpec where
  name : String
  metric : String
  is_metric_maximized : Bool
  deriving DecidableEq, Repr

/-- Per-model class attribute the orchestrator reads. -/
structure ModelSpec where
  name : String
  deriving DecidableEq, Repr

/-- The `results/<Dataset>/<Model>/evaluation.json` files on disk, keyed by
(dataset name, model name); later entries are shadowed by earlier ones. -/
abbrev ResultsStore := List ((String × String) × EvalFile)

def store_get : ResultsStore → String → String → Option EvalFile
  | [], _, _ => none
  | ((d, m), v) :: rest, dataset, model =>
      if d = dataset ∧ m = model then some v else store_get rest dataset model

/-- Record the slot written by `save_evaluation_results` (a `none` slot means
the function wrote nothing). -/
def store_put (store : ResultsStore) (dataset model : String) :
    Option EvalFile → ResultsStore
  | some v => ((dataset, model), v) :: store
  | none => store

/-- What a training-and-evaluation call would do if it ran to completion:
traced outcome and its wall-clock duration. -/
inductive EvalOutcome where
  | ok (score train_time evaluation_time : Rat)
  | memerr
  | err
  deriving DecidableEq, Repr

structure EvalBehavior where
  duration : Rat
  outcome : EvalOutcome
  deriving DecidableEq, Repr

/-- Outcome of the timeout-wrapped call as seen by the orchestrator. -/
inductive TimedOutcome where
  | ok (score train_time evaluation_time : Rat)
  | timeout
  | memerr
  | err
  deriving DecidableEq, Repr

/-- Modelled from the spec: `utils/timeout.py` (`set_timeout`, `TimeoutError`)
is not under `src/`.  Per §5 the wrapper runs the call under a wall-clock
deadline and forcibly aborts, raising a timeout condition, when the deadline
elapses; otherwise the call's own outcome stands. -/
def set_timeout (max_training_time : Rat) (b : EvalBehavior) : TimedOutcome :=
  if b.duration > max_training_time then .timeout
  else
    match b.outcome with
    | .ok score train_time evaluation_time => .ok score train_time evaluation_time
    | .memerr => .memerr
    | .err => .err

/-- `get_tuning_results` from `utils/training.py`: opens
`results/<dataset>/<model>/tuning.json`; an absent file makes `open` raise
`FileNotFoundError`, which the function does not catch (`.error ()` here). -/
def get_tuning_results (tuningFiles : String → String → Option TuningResults)
    (dataset model : String) : Except Unit TuningResults :=
  match tuningFiles dataset model with
  | some prev_results => .ok prev_results
  | none => .error ()

/-- The inner `for model in models` loop of `train_all_models_on_all_datasets`.
`behavior` gives each pair's training-call behaviour; the result is `.ok`
(store, console log) on normal completion and `.error` at the point an
unhandled exception escapes the loop. -/
def run_models (tuningFiles : String → String → Option TuningResults)
    (behavior : String → String → EvalBehavior) (max_training_time : Rat)
    (dataset : DatasetSpec) :
    List ModelSpec → ResultsStore → List String →
      Except (ResultsStore × List String) (ResultsStore × List String)
  | [], store, log => .ok (store, log)
  | model :: rest, store, log =>
    let log := log ++ ["Model: " ++ model.name]
    match get_tuning_results tuningFiles dataset.name model.name with
    | .error _ =>
        run_models tuningFiles behavior max_training_time dataset rest store
          (log ++ ["No hyper-parameters saved for this dataset and model"])
    | .ok tuning_results =>
      match set_timeout max_training_time (behavior dataset.name model.name) with
      | .timeout =>
          run_models tuningFiles behavior max_training_time dataset rest store
            (log ++ ["Model training and testing exceeded allowed time ("
                      ++ toString max_training_time ++ "s)"])
      | .memerr =>
          run_models tuningFiles behavior max_training_time dataset rest store
            (log ++ ["Memory requirements for this model with this dataset are too high"])
      | .err => .error (store, log)
      | .ok score train_time evaluation_time =>
          let slot := save_evaluation_results dataset.is_metric_maximized dataset.metric
            tuning_results score train_time evaluation_time
            (store_get store dataset.name model.name)
          run_models tuningFiles behavior max_training_time dataset rest
            (store_put store dataset.name model.name slot)
            (log ++ ["Results on test set: " ++ dataset.metric ++ "=" ++ fmtFixed 2 score
                      ++ " (" ++ fmtFixed 2 tuning_results.score ++ " during validation)",
                     "Training time: " ++ fmtFixed 1 train_time ++ "s",
                     "Evaluation time: " ++ fmtFixed 1 evaluation_time ++ "s"])

/-- The outer `for dataset in datasets` loop. -/
def run_datasets (tuningFiles : String → String → Option TuningResults)
    (behavior : String → String → EvalBehavior) (max_training_time : Rat) :
    List DatasetSpec → List ModelSpec → ResultsStore → List String →
      Except (ResultsStore × List String) (ResultsStore × List String)
  | [], _, store, log => .ok (store, log)
  | dataset :: rest, models, store, log =>
    match run_models tuningFiles behavior max_training_time dataset models store
        (log ++ ["Dataset: " ++ dataset.name]) with
    | .error e => .error e
    | .ok (store, log) => run_datasets tuningFiles behavior max_training_time rest models store log

/-- `train_all_models_on_all_datasets` from `utils/training.py` (the
`dataset.get()` call is the providers' concern, modelled separately). -/
def train_all_models_on_all_datasets (datasets : List DatasetSpec) (models : List ModelSpec)
    (tuningFiles : String → String → Option TuningResults)
    (behavior : String → String → EvalBehavior) (store : ResultsStore)
    (max_training_time : Rat := 180) :
    Except (ResultsStore × List String) (ResultsStore × List String) :=
  run_datasets tuningFiles behavior max_training_time datasets models store []

/-- C4: a pair whose training call exceeds the time ceiling raises the timeout
condition for that pair only (the decision depends solely on that pair's own
duration), the pair is skipped with a log message, no evaluation result is
persisted for it (the store is passed on unchanged), processing continues with
the next model, and the orchestrator's ceiling defaults to 180 seconds. -/
theorem timeout_skips_pair_only (tuningFiles : String → String → Option TuningResults)
    (behavior : String → String → EvalBehavior) (max_training_time : Rat)
    (dataset : DatasetSpec) (model : ModelSpec) (rest : List ModelSpec)
    (store : ResultsStore) (log : List String) (tr : TuningResults)
    (hfound : get_tuning_results tuningFiles dataset.name model.name = .ok tr)
    (hslow : (behavior dataset.name model.name).duration > max_training_time) :
    run_models tuningFiles behavior max_training_time dataset (model :: rest) store log
      = run_models tuningFiles behavior max_training_time dataset rest store
          ((log ++ ["Model: " ++ model.name])
            ++ ["Model training and testing exceeded allowed time ("
                 ++ toString max_training_time ++ "s)"])
    ∧ (∀ d m, set_timeout max_training_time (behavior d m) = .timeout
          ↔ max_training_time < (behavior d m).duration)
    ∧ (∀ datasets models tf b st,
        train_all_models_on_all_datasets datasets models tf b st
          = run_datasets tf b 180 datasets models st []) := by
  refine ⟨?_, ?_, fun _ _ _ _ _ => rfl⟩
  · simp only [run_models, hfound, set_timeout, if_pos hslow]
  · intro d m
    constructor
    · intro h
      by_contra hle
      have hle' : (behavior d m).duration ≤ max_training_time := le_of_not_lt hle
      simp only [set_timeout, if_neg (not_lt.mpr hle')] at h
      cases hout : (behavior d m).outcome <;> simp [hout] at h
    · intro h
      simp only [set_timeout, if_pos h]

/-- Witness for C4: a concrete pair whose call runs 200s against the 180s
default ceiling is skipped and the loop moves on. -/
theorem timeout_skips_pair_only_witness :
    (get_tuning_results (fun _ _ => some { hp := [], score := 1, n_trials := 2 })
        ({ name := "D", metric := "f1", is_metric_maximized := true : DatasetSpec }).name
        ({ name := "M" : ModelSpec }).name = .ok { hp := [], score := 1, n_trials := 2 })
    ∧ (((fun _ _ => { duration := 200, outcome := .ok 1 2 3 : EvalBehavior })
          ({ name := "D", metric := "f1", is_metric_maximized := true : DatasetSpec }).name
          ({ name := "M" : ModelSpec }).name).duration > (180 : Rat))
    ∧ (run_models (fun _ _ => some { hp := [], score := 1, n_trials := 2 })
          (fun _ _ => { duration := 200, outcome := .ok 1 2 3 }) 180
          { name := "D", metric := "f1", is_metric_maximized := true }
          [{ name := "M" }] [] []
        = run_models (fun _ _ => some { hp := [], score := 1, n_trials := 2 })
            (fun _ _ => { duration := 200, outcome := .ok 1 2 3 }) 180
            { name := "D", metric := "f1", is_metric_maximized := true }
            [] [] (([] ++ ["Model: " ++ "M"])
              ++ ["Model training and testing exceeded allowed time ("
                   ++ toString (180 : Rat) ++ "s)"])) := by
  refine ⟨rfl, by norm_num, ?_⟩
  exact (timeout_skips_pair_only (fun _ _ => some { hp := [], score := 1, n_trials := 2 })
    (fun _ _ => { duration := 200, outcome := .ok 1 2 3 }) 180
    { name := "D", metric := "f1", is_metric_maximized := true } { name := "M" } [] [] []
    { hp := [], score := 1, n_trials := 2 } rfl (by norm_num)).1

/-- C5: within a pair's processing the out-of-memory condition is the only
broad exception class caught — the pair is reported and the loop continues —
while any error other than out-of-memory, timeout and tuning-results-missing
escapes `run_models` at once (remaining models unprocessed) and, through the
dataset loop, halts the entire run. -/
theorem oom_caught_other_errors_fatal (tuningFiles : String → String → Option TuningResults)
    (behavior : String → String → EvalBehavior) (max_training_time : Rat)
    (dataset : DatasetSpec) (model : ModelSpec) (rest : List ModelSpec)
    (store : ResultsStore) (log : List String) (tr : TuningResults)
    (hfound : get_tuning_results tuningFiles dataset.name model.name = .ok tr)
    (hfast : ¬ (behavior dataset.name model.name).duration > max_training_time) :
    ((behavior dataset.name model.name).outcome = .memerr →
      run_models tuningFiles behavior max_training_time dataset (model :: rest) store log
        = run_models tuningFiles behavior max_training_time dataset rest store
            ((log ++ ["Model: " ++ model.name])
              ++ ["Memory requirements for this model with this dataset are too high"]))
    ∧ ((behavior dataset.name model.name).outcome = .err →
        run_models tuningFiles behavior max_training_time dataset (model :: rest) store log
          = .error (store, log ++ ["Model: " ++ model.name]))
    ∧ (∀ restDatasets models lg e,
        run_models tuningFiles behavior max_training_time dataset models store
          (lg ++ ["Dataset: " ++ dataset.name]) = .error e →
        run_datasets tuningFiles behavior max_training_time (dataset :: restDatasets)
          models store lg = .error e) := by
  refine ⟨?_, ?_, ?_⟩
  · intro hmem
    simp only [run_models, hfound, set_timeout, if_neg hfast, hmem]
  · intro herr
    simp only [run_models, hfound, set_timeout, if_neg hfast, herr]
  · intro restDatasets models lg e h
    simp only [run_datasets, h]

/-- Witness for C5: an unclassified error in a concrete pair halts the loop
with the store and log as they stood. -/
theorem oom_caught_other_errors_fatal_witness :
    (get_tuning_results (fun _ _ => some { hp := [], score := 1, n_trials := 2 })
        ({ name := "D", metric := "f1", is_metric_maximized := true : DatasetSpec }).name
        ({ name := "M" : ModelSpec }).name = .ok { hp := [], score := 1, n_trials := 2 })
    ∧ ¬ (((fun _ _ => { duration := 10, outcome := .err : EvalBehavior })
          ({ name := "D", metric := "f1", is_metric_maximized := true : DatasetSpec }).name
          ({ name := "M" : ModelSpec }).name).duration > (180 : Rat))
    ∧ (((fun _ _ => { duration := 10, outcome := .err : EvalBehavior })
          ({ name := "D", metric := "f1", is_metric_maximized := true : DatasetSpec }).name
          ({ name := "M" : ModelSpec }).name).outcome = .err)
    ∧ (run_models (fun _ _ => some { hp := [], score := 1, n_trials := 2 })
          (fun _ _ => { duration := 10, outcome := .err }) 180
          { name := "D", metric := "f1", is_metric_maximized := true }
          [{ name := "M" }, { name := "M2" }] [] []
        = .error ([], [] ++ ["Model: " ++ "M"])) := by
  refine ⟨rfl, by norm_num, rfl, ?_⟩
  exact (oom_caught_other_errors_fatal (fun _ _ => some { hp := [], score := 1, n_trials := 2 })
    (fun _ _ => { duration := 10, outcome := .err }) 180
    { name := "D", metric := "f1", is_metric_maximized := true } { name := "M" } [{ name := "M2" }]
    [] [] { hp := [], score := 1, n_trials := 2 } rfl (by norm_num)).2.1 rfl

/-- C6: an absent `tuning.json` makes `get_tuning_results` signal the
not-found condition (it is propagated, not swallowed), and the orchestrator
logs the skip and proceeds to the next model with the store untouched — no
evaluation file is written for the pair. -/
theorem missing_tuning_results_skips_pair
    (tuningFiles : String → String → Option TuningResults)
    (behavior : String → String → EvalBehavior) (max_training_time : Rat)
    (dataset : DatasetSpec) (model : ModelSpec) (rest : List ModelSpec)
    (store : ResultsStore) (log : List String)
    (habsent : tuningFiles dataset.name model.name = none) :
    get_tuning_results tuningFiles dataset.name model.name = .error ()
    ∧ run_models tuningFiles behavior max_training_time dataset (model :: rest) store log
        = run_models tuningFiles behavior max_training_time dataset rest store
            ((log ++ ["Model: " ++ model.name])
              ++ ["No hyper-parameters saved for this dataset and model"]) := by
  have hget : get_tuning_results tuningFiles dataset.name model.name = .error () := by
    simp only [get_tuning_results, habsent]
  exact ⟨hget, by simp only [run_models, hget]⟩

/-- Witness for C6: a concrete pair with no tuning file is logged and skipped. -/
theorem missing_tuning_results_skips_pair_witness :
    ((fun _ _ => none : String → String → Option TuningResults)
        ({ name := "D", metric := "f1", is_metric_maximized := true : DatasetSpec }).name
        ({ name := "M" : ModelSpec }).name = none)
    ∧ get_tuning_results (fun _ _ => none)
        ({ name := "D", metric := "f1", is_metric_maximized := true : DatasetSpec }).name
        ({ name := "M" : ModelSpec }).name = .error ()
    ∧ run_models (fun _ _ => none) (fun _ _ => { duration := 10, outcome := .ok 1 2 3 }) 180
        { name := "D", metric := "f1", is_metric_maximized := true } [{ name := "M" }] [] []
        = run_models (fun _ _ => none) (fun _ _ => { duration := 10, outcome := .ok 1 2 3 }) 180
            { name := "D", metric := "f1", is_metric_maximized := true } [] []
            (([] ++ ["Model: " ++ "M"])
              ++ ["No hyper-parameters saved for this dataset and model"]) := by
  refine ⟨rfl, ?_⟩
  exact missing_tuning_results_skips_pair (fun _ _ => none)
    (fun _ _ => { duration := 10, outcome := .ok 1 2 3 }) 180
    { name := "D", metric := "f1", is_metric_maximized := true } { name := "M" } [] [] [] rfl

/-- Environment of one `evaluate_model` call: the wall-clock elapsed between
the two `time.time()` readings around prepare/build/fit, the elapsed over
predict-and-score, and the score (`-compute_loss(metric, [compute_metric(...)])`
— both helpers live in `utils/__init__.py`, outside `src/`). -/
structure EvalEnv where
  prepare_fit_elapsed : Rat
  evaluation_elapsed : Rat
  score : Rat
  deriving DecidableEq, Repr

/-- Trace of one `evaluate_model` call: which estimator operations ran and the
returned (score, train_time, evaluation_time). -/
structure EvalTrace where
  restored_weights : Bool
  fitted : Bool
  saved_weights : Bool
  score : Rat
  train_time : Rat
  evaluation_time : Rat
  deriving DecidableEq, Repr

/-- `evaluate_model` from `utils/training.py`.  `weights_file_exists` is the
`isfile(cifar_model_weights_path)` check against `RESULTS_DIR`. -/
def evaluate_model (model_name : String) (weights_file_exists : Bool)
    (env : EvalEnv) : EvalTrace :=
  let is_cifar_model : Bool := model_name = "Cifar10CustomModel"
  if is_cifar_model ∧ weights_file_exists then
    { restored_weights := true
      fitted := false
      saved_weights := false
      score := env.score
      train_time := -1
      evaluation_time := env.evaluation_elapsed }
  else
    { restored_weights := false
      fitted := true
      saved_weights := is_cifar_model
      score := env.score
      train_time := env.prepare_fit_elapsed
      evaluation_time := env.evaluation_elapsed }

/-- C7: when a saved weights artifact exists for the one designated model
(`Cifar10CustomModel`), `evaluate_model` restores it instead of fitting and
records the sentinel training time −1; in every other case it fits the
estimator and records the elapsed wall-clock training time. -/
theorem evaluate_model_cifar_restore (model_name : String) (weights_file_exists : Bool)
    (env : EvalEnv) :
    (model_name = "Cifar10CustomModel" ∧ weights_file_exists = true →
      (evaluate_model model_name weights_file_exists env).restored_weights = true
      ∧ (evaluate_model model_name weights_file_exists env).fitted = false
      ∧ (evaluate_model model_name weights_file_exists env).train_time = -1)
    ∧ (¬ (model_name = "Cifar10CustomModel" ∧ weights_file_exists = true) →
        (evaluate_model model_name weights_file_exists env).restored_weights = false
        ∧ (evaluate_model model_name weights_file_exists env).fitted = true
        ∧ (evaluate_model model_name weights_file_exists env).train_time
            = env.prepare_fit_elapsed) := by
  constructor
  · rintro ⟨hname, hw⟩
    subst hname hw
    exact ⟨rfl, rfl, rfl⟩
  · intro h
    have hcond : ¬ ((model_name = "Cifar10CustomModel" : Bool) = true ∧ weights_file_exists = true) := by
      intro hc
      exact h ⟨by simpa using hc.1, hc.2⟩
    simp only [evaluate_model]
    rw [if_neg (by simpa using hcond)]
    exact ⟨rfl, rfl, rfl⟩

/-- Witness for C7: the designated model with saved weights is restored with
sentinel −1; another model is fitted with the measured time. -/
theorem evaluate_model_cifar_restore_witness :
    (("Cifar10CustomModel" : String) = "Cifar10CustomModel" ∧ (true : Bool) = true)
    ∧ (evaluate_model "Cifar10CustomModel" true
        { prepare_fit_elapsed := 5, evaluation_elapsed := 2, score := 9 }).restored_weights = true
    ∧ (evaluate_model "Cifar10CustomModel" true
        { prepare_fit_elapsed := 5, evaluation_elapsed := 2, score := 9 }).fitted = false
    ∧ (evaluate_model "Cifar10CustomModel" true
        { prepare_fit_elapsed := 5, evaluation_elapsed := 2, score := 9 }).train_time = -1 := by
  refine ⟨⟨rfl, rfl⟩, ?_⟩
  exact (evaluate_model_cifar_restore "Cifar10CustomModel" true
    { prepare_fit_elapsed := 5, evaluation_elapsed := 2, score := 9 }).1 ⟨rfl, rfl⟩

/-- State of the `data/` working directory plus the record of fetches made:
`files` are the names present on disk, `downloads` the URLs retrieved so far
(in order). -/
structure DlState where
  files : List String
  downloads : List String
  deriving DecidableEq, Repr

/-- `Dataset.download_file`: percent-escapes spaces in the URL, then
`urlretrieve`s it to `data/<filename>`. -/
def url_escape (u : String) : String := u.replace " " "%20"

def download_file (st : DlState) (url filename : String) : DlState :=
  { files := filename :: st.files
    downloads := st.downloads ++ [url_escape url] }

/-- `Dataset.download`: fetch every declared (url, filename) resource of the
class (a singleton list for classes declaring `url`/`filename`, the zipped
`urls`/`filenames` otherwise; every provider declares one of the two, so the
`ValueError` branch is unreachable for them). -/
def Dataset.download (resources : List (String × String)) (st : DlState) : DlState :=
  resources.foldl (fun s p => download_file s p.1 p.2) st

/-- The caching pattern shared by every provider's `get`:
`if not isfile(dataset_path): cls.download()`, where `dataset_path` names the
single declared file (or the first declared file for multi-file classes). -/
def cached_fetch (checked : String) (resources : List (String × String))
    (st : DlState) : DlState :=
  if checked ∈ st.files then st else Dataset.download resources st

def DefaultCreditCardDataset.filename : String := "default of credit card clients.xls"

def DefaultCreditCardDataset.url : String :=
  "https://archive.ics.uci.edu/ml/machine-learning-databases/00350/default of credit card clients.xls"

/-- Download-and-cache step of `DefaultCreditCardDataset.get`. -/
def DefaultCreditCardDataset.get_fetch (st : DlState) : DlState :=
  cached_fetch DefaultCreditCardDataset.filename
    [(DefaultCreditCardDataset.url, DefaultCreditCardDataset.filename)] st

def StatlogAustralianDataset.filename : String := "australian.dat"

def StatlogAustralianDataset.url : String :=
  "http://archive.ics.uci.edu/ml/machine-learning-databases/statlog/australian/australian.dat"

/-- Download-and-cache step of `StatlogAustralianDataset.get`. -/
def StatlogAustralianDataset.get_fetch (st : DlState) : DlState :=
  cached_fetch StatlogAustralianDataset.filename
    [(StatlogAustralianDataset.url, StatlogAustralianDataset.filename)] st

def StatlogGermanDataset.filename : String := "german.data-numeric"

def StatlogGermanDataset.url : String :=
  "https://archive.ics.uci.edu/ml/machine-learning-databases/statlog/german/german.data-numeric"

/-- Download-and-cache step of `StatlogGermanDataset.get`. -/
def StatlogGermanDataset.get_fetch (st : DlState) : DlState :=
  cached_fetch StatlogGermanDataset.filename
    [(StatlogGermanDataset.url, StatlogGermanDataset.filename)] st

def AdultDataset.filenames : List String := ["adult.data", "adult.test"]

def AdultDataset.urls : List String :=
  ["https://archive.ics.uci.edu/ml/machine-learning-databases/adult/adult.data",
   "https://archive.ics.uci.edu/ml/machine-learning-databases/adult/adult.test"]

def AdultDataset.resources : List (String × String) :=
  AdultDataset.urls.zip AdultDataset.filenames

/-- Download-and-cache step of `AdultDataset.get_raw`: only
`cls.filenames[0]` is tested for existence. -/
def AdultDataset.get_fetch (st : DlState) : DlState :=
  cached_fetch (AdultDataset.filenames.getD 0 "") AdultDataset.resources st

def SteelPlatesFaultsDataset.filenames : List String := ["Faults.NNA", "Faults27x7_var"]

def SteelPlatesFaultsDataset.urls : List String :=
  ["https://archive.ics.uci.edu/ml/machine-learning-databases/00198/Faults.NNA",
   "https://archive.ics.uci.edu/ml/machine-learning-databases/00198/Faults27x7_var"]

def SteelPlatesFaultsDataset.resources : List (String × String) :=
  SteelPlatesFaultsDataset.urls.zip SteelPlatesFaultsDataset.filenames

/-- Download-and-cache step of `SteelPlatesFaultsDataset.get`: only
`cls.filenames[0]` is tested for existence. -/
def SteelPlatesFaultsDataset.get_fetch (st : DlState) : DlState :=
  cached_fetch (SteelPlatesFaultsDataset.filenames.getD 0 "")
    SteelPlatesFaultsDataset.resources st

def SeismicBumps.filename : String := "seismic-bumps.arff"

def SeismicBumps.url : String :=
  "https://archive.ics.uci.edu/ml/machine-learning-databases/00266/seismic-bumps.arff"

/-- Download-and-cache step of `SeismicBumps.get`. -/
def SeismicBumps.get_fetch (st : DlState) : DlState :=
  cached_fetch SeismicBumps.filename [(SeismicBumps.url, SeismicBumps.filename)] st

theorem download_downloads_append (resources : List (String × String)) (st : DlState) :
    (Dataset.download resources st).downloads
      = st.downloads ++ resources.map (fun r => url_escape r.1) := by
  induction resources generalizing st with
  | nil => simp [Dataset.download]
  | cons p rest ih =>
      simp [Dataset.download, download_file] at ih ⊢
      rw [ih]
      simp

theorem download_keeps_files (resources : List (String × String)) (st : DlState)
    (f : String) (hf : f ∈ st.files) : f ∈ (Dataset.download resources st).files := by
  induction resources generalizing st with
  | nil => exact hf
  | cons p rest ih =>
      exact ih _ (List.mem_cons_of_mem _ hf)

theorem download_adds_files (resources : List (String × String)) (st : DlState)
    (f : String) (hf : f ∈ resources.map Prod.snd) :
    f ∈ (Dataset.download resources st).files := by
  induction resources generalizing st with
  | nil => simp at hf
  | cons p rest ih =>
      simp only [List.map_cons, List.mem_cons] at hf
      rcases hf with hf | hf
      · exact download_keeps_files rest _ f (by simp [download_file, hf])
      · exact ih _ hf

theorem cached_fetch_spec (checked : String) (resources : List (String × String))
    (st : DlState) (hc : checked ∈ resources.map Prod.snd) :
    (checked ∈ st.files → cached_fetch checked resources st = st)
    ∧ (checked ∉ st.files →
        (cached_fetch checked resources st).downloads
          = st.downloads ++ resources.map (fun r => url_escape r.1))
    ∧ cached_fetch checked resources (cached_fetch checked resources st)
        = cached_fetch checked resources st := by
  refine ⟨fun h => by simp [cached_fetch, h], fun h => ?_, ?_⟩
  · simp only [cached_fetch, if_neg h]
    exact download_downloads_append resources st
  · by_cases h : checked ∈ st.files
    · simp [cached_fetch, h]
    · have h2 : checked ∈ (Dataset.download resources st).files :=
        download_adds_files resources st checked hc
      simp [cached_fetch, h, h2]

/-- C8: for every dataset provider, the download-and-cache step of `get` does
not download when the checked backing file is already present (the state is
returned untouched); when it is absent, the declared resources are fetched —
download happens only on first use — and the step is idempotent. -/
theorem datasets_get_idempotent_caching (st : DlState) :
    ((DefaultCreditCardDataset.filename ∈ st.files →
        DefaultCreditCardDataset.get_fetch st = st)
      ∧ (DefaultCreditCardDataset.filename ∉ st.files →
          (DefaultCreditCardDataset.get_fetch st).downloads
            = st.downloads ++ [url_escape DefaultCreditCardDataset.url])
      ∧ DefaultCreditCardDataset.get_fetch (DefaultCreditCardDataset.get_fetch st)
          = DefaultCreditCardDataset.get_fetch st)
    ∧ ((StatlogAustralianDataset.filename ∈ st.files →
          StatlogAustralianDataset.get_fetch st = st)
      ∧ (StatlogAustralianDataset.filename ∉ st.files →
          (StatlogAustralianDataset.get_fetch st).downloads
            = st.downloads ++ [url_escape StatlogAustralianDataset.url])
      ∧ StatlogAustralianDataset.get_fetch (StatlogAustralianDataset.get_fetch st)
          = StatlogAustralianDataset.get_fetch st)
    ∧ ((StatlogGermanDataset.filename ∈ st.files →
          StatlogGermanDataset.get_fetch st = st)
      ∧ (StatlogGermanDataset.filename ∉ st.files →
          (StatlogGermanDataset.get_fetch st).downloads
            = st.downloads ++ [url_escape StatlogGermanDataset.url])
      ∧ StatlogGermanDataset.get_fetch (StatlogGermanDataset.get_fetch st)
          = StatlogGermanDataset.get_fetch st)
    ∧ ((AdultDataset.filenames.getD 0 "" ∈ st.files →
          AdultDataset.get_fetch st = st)
      ∧ (AdultDataset.filenames.getD 0 "" ∉ st.files →
          (AdultDataset.get_fetch st).downloads
            = st.downloads ++ AdultDataset.resources.map (fun r => url_escape r.1))
      ∧ AdultDataset.get_fetch (AdultDataset.get_fetch st) = AdultDataset.get_fetch st)
    ∧ ((SteelPlatesFaultsDataset.filenames.getD 0 "" ∈ st.files →
          SteelPlatesFaultsDataset.get_fetch st = st)
      ∧ (SteelPlatesFaultsDataset.filenames.getD 0 "" ∉ st.files →
          (SteelPlatesFaultsDataset.get_fetch st).downloads
            = st.downloads ++ SteelPlatesFaultsDataset.resources.map (fun r => url_escape r.1))
      ∧ SteelPlatesFaultsDataset.get_fetch (SteelPlatesFaultsDataset.get_fetch st)
          = SteelPlatesFaultsDataset.get_fetch st)
    ∧ ((SeismicBumps.filename ∈ st.files → SeismicBumps.get_fetch st = st)
      ∧ (SeismicBumps.filename ∉ st.files →
          (SeismicBumps.get_fetch st).downloads
            = st.downloads ++ [url_escape SeismicBumps.url])
      ∧ SeismicBumps.get_fetch (SeismicBumps.get_fetch st) = SeismicBumps.get_fetch st) := by
  refine ⟨?_, ?_, ?_, ?_, ?_, ?_⟩
  · exact cached_fetch_spec _ _ st (by decide)
  · exact cached_fetch_spec _ _ st (by decide)
  · exact cached_fetch_spec _ _ st (by decide)
  · exact cached_fetch_spec _ _ st (by decide)
  · exact cached_fetch_spec _ _ st (by decide)
  · exact cached_fetch_spec _ _ st (by decide)

/-- Witness for C8: with `australian.dat` on disk its provider does not
download; with `adult.data` absent the Adult provider fetches its resources. -/
theorem datasets_get_idempotent_caching_witness :
    (StatlogAustralianDataset.filename ∈
        ({ files := ["australian.dat"], downloads := [] : DlState }).files)
    ∧ StatlogAustralianDataset.get_fetch { files := ["australian.dat"], downloads := [] }
        = { files := ["australian.dat"], downloads := [] }
    ∧ (AdultDataset.filenames.getD 0 "" ∉
        ({ files := ["australian.dat"], downloads := [] : DlState }).files)
    ∧ (AdultDataset.get_fetch { files := ["australian.dat"], downloads := [] }).downloads
        = ({ files := ["australian.dat"], downloads := [] : DlState }).downloads
            ++ AdultDataset.resources.map (fun r => url_escape r.1) := by
  refine ⟨by decide, ?_, by decide, ?_⟩
  · exact (datasets_get_idempotent_caching
      { files := ["australian.dat"], downloads := [] }).2.1.1 (by decide)
  · exact (datasets_get_idempotent_caching
      { files := ["australian.dat"], downloads := [] }).2.2.2.1.2.1 (by decide)

/-- `pd.read_csv` at the filesystem level: reading an absent file raises
`FileNotFoundError` (carrying the file name); contents are out of scope here. -/
def read_csv (st : DlState) (filename : String) : Except String Unit :=
  if filename ∈ st.files then .ok () else .error filename

/-- `AdultDataset.get_raw`: checks only `cls.filenames[0]` before deciding to
download, then reads `adult.data` followed by `adult.test`.  Returns the
directory state after the call and either success or the propagated
`FileNotFoundError`. -/
def AdultDataset.get_raw (st : DlState) : DlState × Except String Unit :=
  let st1 := AdultDataset.get_fetch st
  match read_csv st1 (AdultDataset.filenames.getD 0 "") with
  | .error e => (st1, .error e)
  | .ok _ =>
    match read_csv st1 (AdultDataset.filenames.getD 1 "") with
    | .error e => (st1, .error e)
    | .ok _ => (st1, .ok ())

/-- C10: when `adult.data` is present but `adult.test` is absent, the cache
check (which tests only the first declared file) suppresses the download and
`get_raw` fails with `FileNotFoundError` on the second file, leaving the
directory state untouched. -/
theorem adult_get_raw_partial_cache (st : DlState)
    (h0 : "adult.data" ∈ st.files) (h1 : "adult.test" ∉ st.files) :
    AdultDataset.get_raw st = (st, .error "adult.test") := by
  have hfetch : AdultDataset.get_fetch st = st := by
    simp only [AdultDataset.get_fetch, cached_fetch]
    rw [if_pos (by simpa [AdultDataset.filenames] using h0)]
  simp only [AdultDataset.get_raw, hfetch, read_csv, AdultDataset.filenames]
  rw [show ((["adult.data", "adult.test"] : List String).getD 0 "") = "adult.data" from rfl,
    show ((["adult.data", "adult.test"] : List String).getD 1 "") = "adult.test" from rfl,
    if_pos h0, if_neg h1]

/-- Witness for C10 at a concrete directory holding only `adult.data`. -/
theorem adult_get_raw_partial_cache_witness :
    ("adult.data" ∈ ({ files := ["adult.data"], downloads := [] : DlState }).files)
    ∧ ("adult.test" ∉ ({ files := ["adult.data"], downloads := [] : DlState }).files)
    ∧ AdultDataset.get_raw { files := ["adult.data"], downloads := [] }
        = ({ files := ["adult.data"], downloads := [] }, .error "adult.test") := by
  refine ⟨by decide, by decide, ?_⟩
  exact adult_get_raw_partial_cache { files := ["adult.data"], downloads := [] }
    (by decide) (by decide)

/-- A parsed dataframe row (cells as strings; numeric parsing is the tabular
library's concern). -/
abbrev Row := List String

/-- Module-level constant `test_size = 0.25`. -/
def test_size : Rat := 1/4

/-- Test-partition size chosen by sklearn's `train_test_split` for a float
`test_size`: `ceil(test_size * n_samples)`. -/
def n_test (n : Nat) : Nat := Nat.ceil (test_size * (n : Rat))

/-- The randomized index split behind `train_test_split` (no seed is passed in
the source, so the shuffle `perm` is an arbitrary permutation of the row
indices): the first `n_test` shuffled indices form the test partition, the
rest the train partition. -/
def train_test_split_indices (n : Nat) (perm : List Nat) : List Nat × List Nat :=
  (perm.drop (n_test n), perm.take (n_test n))

/-- `sklearn.model_selection.train_test_split` on already-paired (X, y) rows:
returns (train, test). -/
def train_test_split (xy : List α) (perm : List Nat) : List α × List α :=
  let idx := train_test_split_indices xy.length perm
  (idx.1.filterMap (fun i => xy[i]?), idx.2.filterMap (fun i => xy[i]?))

/-- Label column of a provider's `get` result. -/
inductive ColData where
  | strs (l : List String)
  | nats (l : List Nat)
  deriving DecidableEq, Repr

def ColData.length : ColData → Nat
  | .strs l => l.length
  | .nats l => l.length

/-- What a provider's `get` hands back: either the documented
((X_train, y_train), (X_test, y_test)) shape or — for the providers that never
split — the full parsed dataframe. -/
inductive GetResult where
  | split (train_X : List Row) (train_y : ColData) (test_X : List Row) (test_y : ColData)
  | raw (df : List Row)
  deriving DecidableEq, Repr

def GetResult.isSplitPair : GetResult → Bool
  | .split _ _ _ _ => true
  | .raw _ => false

def GetResult.trainRows : GetResult → Nat
  | .split train_X _ _ _ => train_X.length
  | .raw _ => 0

def GetResult.testRows : GetResult → Nat
  | .split _ _ test_X _ => test_X.length
  | .raw _ => 0

def GetResult.trainLabels : GetResult → Nat
  | .split _ train_y _ _ => train_y.length
  | .raw _ => 0

def GetResult.testLabels : GetResult → Nat
  | .split _ _ _ test_y => test_y.length
  | .raw _ => 0

/-- Parse-and-split phase of `DefaultCreditCardDataset.get` on the parsed
sheet: `y = df['Y']` (the last column), `X = df[['X1', ..., 'X23']]` (cells 1
through 23 after the ID column). -/
def DefaultCreditCardDataset.get (df : List Row) (perm : List Nat) : GetResult :=
  let xy := df.map (fun r => ((r.drop 1).take 23, r.getLastD ""))
  let p := train_test_split xy perm
  .split (p.1.map Prod.fst) (.strs (p.1.map Prod.snd))
    (p.2.map Prod.fst) (.strs (p.2.map Prod.snd))

/-- Parse-and-split phase of `StatlogAustralianDataset.get`:
`y = df[df.columns[-1]]`, `X = df[df.columns[:-1]]`. -/
def StatlogAustralianDataset.get (df : List Row) (perm : List Nat) : GetResult :=
  let xy := df.map (fun r => (r.dropLast, r.getLastD ""))
  let p := train_test_split xy perm
  .split (p.1.map Prod.fst) (.strs (p.1.map Prod.snd))
    (p.2.map Prod.fst) (.strs (p.2.map Prod.snd))

/-- Parse-and-split phase of `StatlogGermanDataset.get` (same column layout as
the Australian provider, different on-disk separator). -/
def StatlogGermanDataset.get (df : List Row) (perm : List Nat) : GetResult :=
  let xy := df.map (fun r => (r.dropLast, r.getLastD ""))
  let p := train_test_split xy perm
  .split (p.1.map Prod.fst) (.strs (p.1.map Prod.snd))
    (p.2.map Prod.fst) (.strs (p.2.map Prod.snd))

/-- `AdultDataset.parse_dataset`: `X = df[df.columns[:14]]`,
`y = df[df.columns[14]]`. -/
def AdultDataset.parse_dataset (df : List Row) : List Row × List String :=
  (df.map (fun r => r.take 14), df.map (fun r => r.getD 14 ""))

/-- `sklearn.preprocessing.LabelEncoder.fit`: classes are the sorted distinct
labels seen in the training column. -/
def LabelEncoder.insertSorted (s : String) : List String → List String
  | [] => [s]
  | t :: rest => if s < t then s :: t :: rest else t :: LabelEncoder.insertSorted s rest

def LabelEncoder.classes (ys : List String) : List String :=
  ys.dedup.foldr LabelEncoder.insertSorted []

/-- `LabelEncoder.transform`: index of each label among the fitted classes
(sklearn raises on unseen labels; the harness only transforms labels drawn
from the fitted column, so the total `indexOf` stands in). -/
def LabelEncoder.transform (classes ys : List String) : List Nat :=
  ys.map (fun y => classes.indexOf y)

/-- `AdultDataset.get` on the two parsed files: the train/test partitions are
the pre-split `adult.data` / `adult.test` contents (no randomized split); test
labels lose their trailing `.` before encoding. -/
def AdultDataset.get (df_train df_test : List Row) : GetResult :=
  let ptr := AdultDataset.parse_dataset df_train
  let pte := AdultDataset.parse_dataset df_test
  let classes := LabelEncoder.classes ptr.2
  .split ptr.1 (.nats (LabelEncoder.transform classes ptr.2))
    pte.1 (.nats (LabelEncoder.transform classes (pte.2.map (fun s => s.dropRight 1))))

/-- `SteelPlatesFaultsDataset.get`: reads `Faults.NNA` into a dataframe (and
the feature-name list into a class attribute) and returns the dataframe as-is
— no label separation, no train/test split. -/
def SteelPlatesFaultsDataset.get (df : List Row) : GetResult :=
  .raw df

/-- `SeismicBumps.get`: loads the ARFF records, decodes byte-string columns,
and returns the single dataframe as-is — no label separation, no train/test
split. -/
def SeismicBumps.get (df : List Row) : GetResult :=
  .raw df

theorem n_test_le (n : Nat) : n_test n ≤ n := by
  have h : test_size * (n : Rat) ≤ (n : Rat) := by
    have hn : (0 : Rat) ≤ (n : Rat) := Nat.cast_nonneg n
    rw [test_size]
    linarith
  exact Nat.ceil_le.mpr h

theorem n_test_approx (n : Nat) : n ≤ 4 * n_test n ∧ 4 * n_test n < n + 4 := by
  constructor
  · have h := Nat.le_ceil (test_size * (n : Rat))
    rw [test_size] at h
    have h4 : (n : Rat) ≤ 4 * (n_test n : Rat) := by
      unfold n_test test_size
      linarith
    exact_mod_cast h4
  · have hpos : (0 : Rat) ≤ test_size * (n : Rat) := by
      have hn : (0 : Rat) ≤ (n : Rat) := Nat.cast_nonneg n
      rw [test_size]
      linarith
    have h := Nat.ceil_lt_add_one hpos
    rw [test_size] at h
    have h4 : 4 * (n_test n : Rat) < (n : Rat) + 4 := by
      unfold n_test test_size
      linarith
    exact_mod_cast h4

theorem filterMap_getElem_length (xy : List α) (l : List Nat)
    (h : ∀ i ∈ l, i < xy.length) :
    (l.filterMap (fun i => xy[i]?)).length = l.length := by
  induction l with
  | nil => rfl
  | cons a l ih =>
      have ha : a < xy.length := h a (List.mem_cons_self a l)
      have hsome : xy[a]? = some xy[a] := List.getElem?_eq_getElem ha
      simp only [List.filterMap_cons, hsome, List.length_cons]
      rw [ih (fun i hi => h i (List.mem_cons_of_mem a hi))]

theorem perm_range_mem_lt {n : Nat} {perm : List Nat}
    (hperm : perm.Perm (List.range n)) : ∀ i ∈ perm, i < n := by
  intro i hi
  exact List.mem_range.mp (hperm.mem_iff.mp hi)

theorem train_test_split_lengths (xy : List α) (perm : List Nat)
    (hperm : perm.Perm (List.range xy.length)) :
    (train_test_split xy perm).1.length = xy.length - n_test xy.length
    ∧ (train_test_split xy perm).2.length = n_test xy.length := by
  have hlen : perm.length = xy.length := by
    rw [hperm.length_eq, List.length_range]
  have hlt := perm_range_mem_lt hperm
  constructor
  · rw [show (train_test_split xy perm).1
        = (perm.drop (n_test xy.length)).filterMap (fun i => xy[i]?) from rfl]
    rw [filterMap_getElem_length xy _ (fun i hi => hlt i (List.drop_subset _ perm hi))]
    rw [List.length_drop, hlen]
  · rw [show (train_test_split xy perm).2
        = (perm.take (n_test xy.length)).filterMap (fun i => xy[i]?) from rfl]
    rw [filterMap_getElem_length xy _ (fun i hi => hlt i (List.take_subset _ perm hi))]
    rw [List.length_take, hlen, Nat.min_eq_left (n_test_le xy.length)]

theorem train_test_split_indices_disjoint (n : Nat) (perm : List Nat)
    (hperm : perm.Perm (List.range n)) :
    List.Disjoint (train_test_split_indices n perm).1 (train_test_split_indices n perm).2 := by
  have hnodup : perm.Nodup := hperm.nodup_iff.mpr (List.nodup_range n)
  exact (List.disjoint_take_drop hnodup le_rfl).symm

theorem split_xy_lengths (f : Row → Row × String) (df : List Row) (perm : List Nat)
    (hperm : perm.Perm (List.range df.length)) :
    (train_test_split (df.map f) perm).2.length = n_test df.length
    ∧ (train_test_split (df.map f) perm).1.length = df.length - n_test df.length := by
  have h := train_test_split_lengths (df.map f) perm (by rwa [List.length_map])
  rw [List.length_map] at h
  exact ⟨h.2, h.1⟩

/-- Counterexample to C2 as stated: `SteelPlatesFaultsDataset.get` (and
`SeismicBumps.get`) return the full parsed dataframe, not a
((X_train, y_train), (X_test, y_test)) pair. -/
theorem steel_plates_get_returns_raw_df :
    (SteelPlatesFaultsDataset.get [["1", "2"]]).isSplitPair = false
    ∧ SteelPlatesFaultsDataset.get [["1", "2"]] = .raw [["1", "2"]]
    ∧ (SeismicBumps.get [["1", "2"]]).isSplitPair = false := by
  exact ⟨rfl, rfl, rfl⟩

/-- C2 (amended): the three randomly-splitting providers
(`DefaultCreditCardDataset`, `StatlogAustralianDataset`,
`StatlogGermanDataset`) return train/test feature-label pairs drawn from
disjoint index sets whose row counts sum to the full parsed dataset, with the
test fraction `ceil(0.25 * n) / n` (approximately 0.25); `AdultDataset`
returns feature-label pairs whose partitions are the two pre-split files (no
0.25 fraction); `SteelPlatesFaultsDataset` and `SeismicBumps` return the full
parsed dataframe with no split at all. -/
theorem datasets_get_split_properties (df df_train df_test : List Row) (perm : List Nat)
    (hperm : perm.Perm (List.range df.length)) :
    ((StatlogAustralianDataset.get df perm).isSplitPair = true
      ∧ (StatlogAustralianDataset.get df perm).testRows = n_test df.length
      ∧ (StatlogAustralianDataset.get df perm).trainRows
          + (StatlogAustralianDataset.get df perm).testRows = df.length
      ∧ (StatlogAustralianDataset.get df perm).trainLabels
          = (StatlogAustralianDataset.get df perm).trainRows
      ∧ (StatlogAustralianDataset.get df perm).testLabels
          = (StatlogAustralianDataset.get df perm).testRows)
    ∧ ((StatlogGermanDataset.get df perm).isSplitPair = true
      ∧ (StatlogGermanDataset.get df perm).testRows = n_test df.length
      ∧ (StatlogGermanDataset.get df perm).trainRows
          + (StatlogGermanDataset.get df perm).testRows = df.length
      ∧ (StatlogGermanDataset.get df perm).trainLabels
          = (StatlogGermanDataset.get df perm).trainRows
      ∧ (StatlogGermanDataset.get df perm).testLabels
          = (StatlogGermanDataset.get df perm).testRows)
    ∧ ((DefaultCreditCardDataset.get df perm).isSplitPair = true
      ∧ (DefaultCreditCardDataset.get df perm).testRows = n_test df.length
      ∧ (DefaultCreditCardDataset.get df perm).trainRows
          + (DefaultCreditCardDataset.get df perm).testRows = df.length
      ∧ (DefaultCreditCardDataset.get df perm).trainLabels
          = (DefaultCreditCardDataset.get df perm).trainRows
      ∧ (DefaultCreditCardDataset.get df perm).testLabels
          = (DefaultCreditCardDataset.get df perm).testRows)
    ∧ List.Disjoint (train_test_split_indices df.length perm).1
        (train_test_split_indices df.length perm).2
    ∧ (df.length ≤ 4 * n_test df.length ∧ 4 * n_test df.length < df.length + 4)
    ∧ ((AdultDataset.get df_train df_test).isSplitPair = true
      ∧ (AdultDataset.get df_train df_test).trainRows = df_train.length
      ∧ (AdultDataset.get df_train df_test).testRows = df_test.length
      ∧ (AdultDataset.get df_train df_test).trainLabels = df_train.length
      ∧ (AdultDataset.get df_train df_test).testLabels = df_test.length)
    ∧ SteelPlatesFaultsDataset.get df = .raw df
    ∧ SeismicBumps.get df = .raw df := by
  have hsub : df.length - n_test df.length + n_test df.length = df.length :=
    Nat.sub_add_cancel (n_test_le df.length)
  refine ⟨?_, ?_, ?_,
    train_test_split_indices_disjoint df.length perm hperm,
    n_test_approx df.length, ?_, rfl, rfl⟩
  · have h := split_xy_lengths (fun r => (r.dropLast, r.getLastD "")) df perm hperm
    refine ⟨rfl, ?_, ?_, ?_, ?_⟩
    · simpa only [StatlogAustralianDataset.get, GetResult.testRows, List.length_map] using h.1
    · simp only [StatlogAustralianDataset.get, GetResult.trainRows, GetResult.testRows,
        List.length_map]
      rw [h.1, h.2, hsub]
    · simp only [StatlogAustralianDataset.get, GetResult.trainLabels, GetResult.trainRows,
        ColData.length, List.length_map]
    · simp only [StatlogAustralianDataset.get, GetResult.testLabels, GetResult.testRows,
        ColData.length, List.length_map]
  · have h := split_xy_lengths (fun r => (r.dropLast, r.getLastD "")) df perm hperm
    refine ⟨rfl, ?_, ?_, ?_, ?_⟩
    · simpa only [StatlogGermanDataset.get, GetResult.testRows, List.length_map] using h.1
    · simp only [StatlogGermanDataset.get, GetResult.trainRows, GetResult.testRows,
        List.length_map]
      rw [h.1, h.2, hsub]
    · simp only [StatlogGermanDataset.get, GetResult.trainLabels, GetResult.trainRows,
        ColData.length, List.length_map]
    · simp only [StatlogGermanDataset.get, GetResult.testLabels, GetResult.testRows,
        ColData.length, List.length_map]
  · have h := split_xy_lengths (fun r => ((r.drop 1).take 23, r.getLastD "")) df perm hperm
    refine ⟨rfl, ?_, ?_, ?_, ?_⟩
    · simpa only [DefaultCreditCardDataset.get, GetResult.testRows, List.length_map] using h.1
    · simp only [DefaultCreditCardDataset.get, GetResult.trainRows, GetResult.testRows,
        List.length_map]
      rw [h.1, h.2, hsub]
    · simp only [DefaultCreditCardDataset.get, GetResult.trainLabels, GetResult.trainRows,
        ColData.length, List.length_map]
    · simp only [DefaultCreditCardDataset.get, GetResult.testLabels, GetResult.testRows,
        ColData.length, List.length_map]
  · refine ⟨rfl, ?_, ?_, ?_, ?_⟩ <;>
      simp [AdultDataset.get, AdultDataset.parse_dataset, LabelEncoder.transform,
        GetResult.trainRows, GetResult.testRows, GetResult.trainLabels,
        GetResult.testLabels, ColData.length]

/-- Witness for the amended C2 at a concrete four-row dataframe and shuffle. -/
theorem datasets_get_split_properties_witness :
    (([2, 0, 3, 1] : List Nat).Perm
        (List.range ([["a", "b"], ["c", "d"], ["e", "f"], ["g", "h"]] : List Row).length))
    ∧ (StatlogAustralianDataset.get [["a", "b"], ["c", "d"], ["e", "f"], ["g", "h"]]
        [2, 0, 3, 1]).testRows
        = n_test ([["a", "b"], ["c", "d"], ["e", "f"], ["g", "h"]] : List Row).length
    ∧ (StatlogAustralianDataset.get [["a", "b"], ["c", "d"], ["e", "f"], ["g", "h"]]
        [2, 0, 3, 1]).trainRows
        + (StatlogAustralianDataset.get [["a", "b"], ["c", "d"], ["e", "f"], ["g", "h"]]
            [2, 0, 3, 1]).testRows = 4
    ∧ List.Disjoint (train_test_split_indices 4 [2, 0, 3, 1]).1
        (train_test_split_indices 4 [2, 0, 3, 1]).2 := by
  refine ⟨by decide, ?_, ?_, ?_⟩
  · exact (datasets_get_split_properties
      [["a", "b"], ["c", "d"], ["e", "f"], ["g", "h"]] [] [] [2, 0, 3, 1] (by decide)).1.2.1
  · exact (datasets_get_split_properties
      [["a", "b"], ["c", "d"], ["e", "f"], ["g", "h"]] [] [] [2, 0, 3, 1] (by decide)).1.2.2.1
  · exact (datasets_get_split_properties
      [["a", "b"], ["c", "d"], ["e", "f"], ["g", "h"]] [] [] [2, 0, 3, 1] (by decide)).2.2.2.1

/-- Modelled from the spec: `config.py` (`RESULTS_DIR`) is not under `src/`;
§6 fixes the results root as `results/`. -/
def RESULTS_DIR : String := "results"

/-- A character of the regex class `[a-zA-Z0-9]`. -/
def isAlnumAscii (c : Char) : Bool := c.isUpper || c.isLower || c.isDigit

/-- `re.match` of `RESULTS_DIR + r'/([a-zA-Z0-9]+)/([a-zA-Z0-9]+)/evaluation.json'`
against a glob hit `<root>/<dataset>/<model>/evaluation.json` (glob segments
never contain `/`).  The greedy alphanumeric groups must consume their whole
segment to reach the following `/`, so the match succeeds exactly when both
directory segments are nonempty alphanumeric runs; the unescaped `.` of
`evaluation.json` and the pattern's open end are immaterial for paths of this
shape.  Returns `.groups()` or `None`. -/
def pattern_match (root dataset model leaf : String) : Option (String × String) :=
  if root = RESULTS_DIR ∧ dataset ≠ "" ∧ dataset.data.all isAlnumAscii
      ∧ model ≠ "" ∧ model.data.all isAlnumAscii ∧ leaf = "evaluation.json" then
    some (dataset, model)
  else
    none

/-- One glob hit of `'results/*/*/evaluation.json'`: the two wildcard
segments and the parsed JSON content of the file. -/
structure ResultFile where
  dataset_dir : String
  model_dir : String
  content : EvalFile
  deriving DecidableEq, Repr

/-- Python's `str(...)` of a list of strings, as produced by `f"{k}={v}"`. -/
def pyReprList (l : List String) : String :=
  "[" ++ String.intercalate ", " (l.map (fun s => "\x27" ++ s ++ "\x27")) ++ "]"

/-- One `f"{k}={v}"` / `f"{k}={v:.2f}"` piece of the flattened `hp` string:
`str`, `list` and `NoneType` values are stringified; every other value (ints,
floats, and bools — an int subclass in Python) is formatted to 2 decimals. -/
def flattenEntry (k : String) (v : JsonVal) : String :=
  match v with
  | .str s => k ++ "=" ++ s
  | .listv l => k ++ "=" ++ pyReprList l
  | .null => k ++ "=" ++ "None"
  | .num q => k ++ "=" ++ fmtFixed 2 q
  | .boolv b => k ++ "=" ++ fmtFixed 2 (if b then 1 else 0)

/-- `','.join(...)` over the `hp` items. -/
def flatten_hp (hp : HP) : String :=
  String.intercalate "," (hp.map (fun kv => flattenEntry kv.1 kv.2))

/-- A row of the aggregated results table, restricted to the columns the
source selects; `model_rank` is the column `get_model_ranking` later adds
(absent, `none`, in the rows `get_results_table` builds). -/
structure ResRow where
  dataset : String
  model : String
  score : Rat
  val_score : Rat
  train_time : Rat
  evaluation_time : Rat
  tuning_n_trials : Nat
  hp : String
  model_rank : Option Rat
  deriving DecidableEq, Repr

/-- One iteration of the `for result_file in result_files` loop: match the
path (the glob literal is `'results/...'`), flatten `hp`, add the extracted
identifiers.  `none` models the `AttributeError` crash on
`pattern.match(...).groups()` when the match failed. -/
def row_of_file (f : ResultFile) : Option ResRow :=
  match pattern_match "results" f.dataset_dir f.model_dir "evaluation.json" with
  | none => none
  | some dm =>
      some { dataset := dm.1
             model := dm.2
             score := f.content.score
             val_score := f.content.val_score
             train_time := f.content.train_time
             evaluation_time := f.content.evaluation_time
             tuning_n_trials := f.content.tuning_n_trials
             hp := flatten_hp f.content.hp
             model_rank := none }

def build_result_table : List ResultFile → Except String (List ResRow)
  | [] => .ok []
  | f :: rest =>
    match row_of_file f with
    | none => .error "AttributeError"
    | some r =>
      match build_result_table rest with
      | .error e => .error e
      | .ok rows => .ok (r :: rows)

/-- `get_results_table` from `utils/training.py`: one row per glob hit, then
the column selection `result_table[[...]]` — which raises `KeyError` when the
DataFrame was built from zero rows and so has no columns. -/
def get_results_table (result_files : List ResultFile) : Except String (List ResRow) :=
  match build_result_table result_files with
  | .error e => .error e
  | .ok result_table =>
      if result_table.isEmpty then .error "KeyError" else .ok result_table

/-- The row the loop builds for a file whose path segments match the pattern. -/
def row_of_good_file (f : ResultFile) : ResRow :=
  { dataset := f.dataset_dir
    model := f.model_dir
    score := f.content.score
    val_score := f.content.val_score
    train_time := f.content.train_time
    evaluation_time := f.content.evaluation_time
    tuning_n_trials := f.content.tuning_n_trials
    hp := flatten_hp f.content.hp
    model_rank := none }

theorem row_of_file_good (f : ResultFile)
    (h1 : f.dataset_dir ≠ "") (h2 : f.dataset_dir.data.all isAlnumAscii = true)
    (h3 : f.model_dir ≠ "") (h4 : f.model_dir.data.all isAlnumAscii = true) :
    row_of_file f = some (row_of_good_file f) := by
  unfold row_of_file pattern_match
  rw [if_pos ⟨rfl, h1, h2, h3, h4, rfl⟩]
  rfl

theorem build_result_table_good (files : List ResultFile)
    (hgood : ∀ f ∈ files, f.dataset_dir ≠ "" ∧ f.dataset_dir.data.all isAlnumAscii = true
        ∧ f.model_dir ≠ "" ∧ f.model_dir.data.all isAlnumAscii = true) :
    build_result_table files = .ok (files.map row_of_good_file) := by
  induction files with
  | nil => rfl
  | cons f rest ih =>
      have hf := hgood f (List.mem_cons_self f rest)
      rw [show build_result_table (f :: rest)
          = match row_of_file f with
            | none => .error "AttributeError"
            | some r =>
              match build_result_table rest with
              | .error e => .error e
              | .ok rows => .ok (r :: rows) from rfl]
      rw [row_of_file_good f hf.1 hf.2.1 hf.2.2.1 hf.2.2.2,
        ih (fun g hg => hgood g (List.mem_cons_of_mem f hg))]
      rfl

/-- Counterexample to C3 as stated: a stored evaluation file whose dataset
directory segment contains an underscore is under the results root (the glob
`results/*/*/evaluation.json` lists it), but the path regex does not match, so
`pattern.match(result_file).groups()` raises `AttributeError` instead of
contributing a row — the table is never produced. -/
theorem get_results_table_crashes_on_nonalnum_segment :
    pattern_match "results" "my_ds" "Model1" "evaluation.json" = none
    ∧ get_results_table
        [{ dataset_dir := "my_ds", model_dir := "Model1",
           content := { hp := [("n", JsonVal.num 3)], score := 1, tuning_n_trials := 10,
                        val_score := 2, train_time := 3, evaluation_time := 4,
                        metric_used := "f1" } }]
        = .error "AttributeError" := by
  exact ⟨by rfl, by rfl⟩

/-- C3 (amended): for a nonempty collection of `evaluation.json` files whose
two directory segments are all nonempty alphanumeric runs, `get_results_table`
produces exactly one row per file, in order, with `dataset`/`model` extracted
from the two path segments immediately preceding the filename and `hp`
flattened per `flatten_hp` (numeric values to 2 decimals, strings/lists/None
stringified); a file with a non-alphanumeric segment instead crashes the call,
as does an empty collection (column selection on a columnless frame). -/
theorem get_results_table_one_row_per_file (files : List ResultFile)
    (hne : files ≠ [])
    (hgood : ∀ f ∈ files, f.dataset_dir ≠ "" ∧ f.dataset_dir.data.all isAlnumAscii = true
        ∧ f.model_dir ≠ "" ∧ f.model_dir.data.all isAlnumAscii = true) :
    get_results_table files = .ok (files.map row_of_good_file)
    ∧ (files.map row_of_good_file).length = files.length
    ∧ ∀ f ∈ files,
        pattern_match "results" f.dataset_dir f.model_dir "evaluation.json"
          = some (f.dataset_dir, f.model_dir)
        ∧ (row_of_good_file f).dataset = f.dataset_dir
        ∧ (row_of_good_file f).model = f.model_dir
        ∧ (row_of_good_file f).hp = flatten_hp f.content.hp := by
  refine ⟨?_, List.length_map files row_of_good_file, ?_⟩
  · rw [show get_results_table files
        = match build_result_table files with
          | .error e => .error e
          | .ok result_table =>
              if result_table.isEmpty then .error "KeyError" else .ok result_table from rfl]
    rw [build_result_table_good files hgood]
    cases files with
    | nil => exact absurd rfl hne
    | cons f rest => rfl
  · intro f hf
    have h := hgood f hf
    refine ⟨?_, rfl, rfl, rfl⟩
    unfold pattern_match
    rw [if_pos ⟨rfl, h.1, h.2.1, h.2.2.1, h.2.2.2, rfl⟩]

/-- Witness for the amended C3 at two concrete stored files. -/
theorem get_results_table_one_row_per_file_witness :
    (([{ dataset_dir := "DS1", model_dir := "M1",
         content := { hp := [("lr", JsonVal.num (1/2)), ("loss", JsonVal.str "linear")],
                      score := 1, tuning_n_trials := 10, val_score := 2, train_time := 3,
                      evaluation_time := 4, metric_used := "f1" } },
       { dataset_dir := "DS1", model_dir := "M2",
         content := { hp := [], score := 5, tuning_n_trials := 20, val_score := 6,
                      train_time := 7, evaluation_time := 8, metric_used := "f1" } }]
      : List ResultFile) ≠ [])
    ∧ get_results_table
        [{ dataset_dir := "DS1", model_dir := "M1",
           content := { hp := [("lr", JsonVal.num (1/2)), ("loss", JsonVal.str "linear")],
                        score := 1, tuning_n_trials := 10, val_score := 2, train_time := 3,
                        evaluation_time := 4, metric_used := "f1" } },
         { dataset_dir := "DS1", model_dir := "M2",
           content := { hp := [], score := 5, tuning_n_trials := 20, val_score := 6,
                        train_time := 7, evaluation_time := 8, metric_used := "f1" } }]
        = .ok (([{ dataset_dir := "DS1", model_dir := "M1",
                   content := { hp := [("lr", JsonVal.num (1/2)), ("loss", JsonVal.str "linear")],
                                score := 1, tuning_n_trials := 10, val_score := 2, train_time := 3,
                                evaluation_time := 4, metric_used := "f1" } },
                 { dataset_dir := "DS1", model_dir := "M2",
                   content := { hp := [], score := 5, tuning_n_trials := 20, val_score := 6,
                                train_time := 7, evaluation_time := 8, metric_used := "f1" } }]
                : List ResultFile).map row_of_good_file) := by
  refine ⟨by decide, ?_⟩
  exact (get_results_table_one_row_per_file _ (by decide)
    (by intro f hf; fin_cases hf <;> exact ⟨by decide, by decide, by decide, by decide⟩)).1

/-- pandas `Series.rank(ascending=False)` (default `method='average'`) of a
value within its group: count of strictly greater values plus the average of
the positions the ties occupy. -/
def rank_desc (group : List Rat) (x : Rat) : Rat :=
  ((group.countP fun y => decide (x < y) : Nat) : Rat)
    + (((group.countP fun y => decide (y = x) : Nat) : Rat) + 1) / 2

/-- The value `results.groupby('dataset')['score'].rank(ascending=False)`
assigns to row `r` of table `t`. -/
def get_model_ranking_rank (t : List ResRow) (r : ResRow) : Rat :=
  rank_desc ((t.filter fun s => decide (s.dataset = r.dataset)).map fun s => s.score) r.score

/-- The in-place column assignment
`results['model_rank'] = results.groupby('dataset')['score'].rank(ascending=False)`. -/
def with_model_rank (t : List ResRow) : List ResRow :=
  t.map fun r => { r with model_rank := some (get_model_ranking_rank t r) }

def series_mean (l : List Rat) : Rat := l.sum / (l.length : Rat)

/-- pandas sorts groupby keys. -/
def sort_keys (l : List String) : List String := l.foldr LabelEncoder.insertSorted []

def insertByValue (p : String × Rat) : List (String × Rat) → List (String × Rat)
  | [] => [p]
  | q :: rest => if p.2 < q.2 then p :: q :: rest else q :: insertByValue p rest

/-- `Series.sort_values()` ascending. -/
def series_sort_values (l : List (String × Rat)) : List (String × Rat) :=
  l.foldr insertByValue []

/-- `get_model_ranking` from `utils/training.py`: mutates its argument by
writing the `model_rank` column, then returns
`results.groupby('model')['model_rank'].mean().sort_values()` (the expression
statement on the intervening lines computes a slice and discards it).  The
pair is (table after the call, returned ranking). -/
def get_model_ranking (results : List ResRow) : List ResRow × List (String × Rat) :=
  let results2 := with_model_rank results
  let keys := sort_keys (results2.map fun r => r.model).dedup
  let means := keys.map fun k =>
    (k, series_mean ((results2.filter fun r => decide (r.model = k)).filterMap
          fun r => r.model_rank))
  (results2, series_sort_values means)

/-- A one-row table already carrying exactly the rank the call would compute. -/
def exampleRankedRow : ResRow :=
  { dataset := "d", model := "m", score := 1, val_score := 1, train_time := 1,
    evaluation_time := 1, tuning_n_trials := 1, hp := "", model_rank := some 1 }

/-- The same row with the `model_rank` column absent. -/
def exampleUnrankedRow : ResRow :=
  { dataset := "d", model := "m", score := 1, val_score := 1, train_time := 1,
    evaluation_time := 1, tuning_n_trials := 1, hp := "", model_rank := none }

/-- Counterexample to C9 as stated: a table that already contains the
`model_rank` column with exactly the values the call computes is left
(value-for-value) unchanged, so "the input table is not left unchanged" fails
for this input. -/
theorem get_model_ranking_fixed_point :
    (get_model_ranking [exampleRankedRow]).1 = [exampleRankedRow] := by
  have h1 : get_model_ranking_rank [exampleRankedRow] exampleRankedRow = 1 := by
    simp [get_model_ranking_rank, rank_desc, exampleRankedRow]
  show with_model_rank [exampleRankedRow] = [exampleRankedRow]
  simp only [with_model_rank, List.map_cons, List.map_nil, h1]
  rfl

theorem map_ne_self_of_mem {α : Type} {f : α → α} {l : List α} {a : α}
    (ha : a ∈ l) (hfa : f a ≠ a) : l.map f ≠ l := by
  induction l with
  | nil => cases ha
  | cons b t ih =>
      intro h
      simp only [List.map_cons, List.cons.injEq] at h
      rcases List.mem_cons.mp ha with rfl | ha'
      · exact hfa h.1
      · exact ih ha' h.2

/-- C9 (amended): `get_model_ranking` writes the `model_rank` column into its
input table — every row of the table after the call carries the per-dataset
descending (fractional, average-tie) rank of its score, all other fields
unchanged — and the table differs from the input whenever some row did not
already hold exactly that rank (in particular whenever the column was absent).
A table already carrying exactly the computed ranks is left value-unchanged. -/
theorem get_model_ranking_adds_rank_column (t : List ResRow) :
    (get_model_ranking t).1
      = (t.map fun r => { r with model_rank := some (get_model_ranking_rank t r) })
    ∧ (∀ r ∈ t, get_model_ranking_rank t r
        = (((t.filter fun s => decide (s.dataset = r.dataset)).countP
              fun s => decide (r.score < s.score) : Nat) : Rat)
          + ((((t.filter fun s => decide (s.dataset = r.dataset)).countP
                fun s => decide (s.score = r.score) : Nat) : Rat) + 1) / 2)
    ∧ (∀ r ∈ t, r.model_rank ≠ some (get_model_ranking_rank t r) →
        (get_model_ranking t).1 ≠ t) := by
  refine ⟨rfl, ?_, ?_⟩
  · intro r _
    simp only [get_model_ranking_rank, rank_desc, List.countP_map]
    rfl
  · intro r hr hne
    have hfr : ({ r with model_rank := some (get_model_ranking_rank t r) } : ResRow) ≠ r := by
      intro heq
      exact hne ((congrArg ResRow.model_rank heq).symm)
    exact map_ne_self_of_mem hr hfr

/-- Witness for the amended C9: on a one-row table lacking the column, the
call changes the table. -/
theorem get_model_ranking_adds_rank_column_witness :
    exampleUnrankedRow ∈ [exampleUnrankedRow]
    ∧ exampleUnrankedRow.model_rank
        ≠ some (get_model_ranking_rank [exampleUnrankedRow] exampleUnrankedRow)
    ∧ (get_model_ranking [exampleUnrankedRow]).1 ≠ [exampleUnrankedRow] := by
  refine ⟨List.mem_cons_self _ _, by decide, ?_⟩
  exact (get_model_ranking_adds_rank_column [exampleUnrankedRow]).2.2 exampleUnrankedRow
    (List.mem_cons_self _ _) (by decide)
